import Mathlib

/-!
Verification development for the text-editor application of tabi-tabi-os
(`src/components/apps/textEditor.tsx`).

The component is embedded as an explicit state machine: React `useState`
fields become record fields, `useEffect` bodies become functions from states
to states (re-run exactly when their dependency arrays change, per React's
`Object.is` comparison), and side effects on the outside world (persistent
store writes, file downloads, clipboard attempts) are collected in an
`Output` record per event.  Timers (`setTimeout` for the status-message
clear, `setInterval` for the cosmetic auto-save) are modelled as explicit
pending-deadline data fired by dedicated events.
-/

namespace TabiTabi

/-- EditorSettings.textAlign: enum of the four CSS alignments. -/
inductive TextAlign
  | left
  | center
  | right
  | justify
deriving DecidableEq, Repr

/-- The editor-settings record (one per editor instance).  The type is
declared in the `atoms/textEditorAtom` module, which is not part of the
provided sources; its field list is taken from the spec's data-model table
and matches every field the component reads. -/
structure EditorSettings where
  fontFamily : String
  fontSize : Nat
  lineHeight : Rat
  isBold : Bool
  isItalic : Bool
  isUnderline : Bool
  textAlign : TextAlign
  textColor : String
  backgroundColor : String
  wordWrap : Bool
  tabSize : Nat
  autoSaveInterval : Int
deriving DecidableEq, Repr

/-- Modelled from the spec: `defaultEditorSettings` lives in the missing
`atoms/textEditorAtom` module.  The spec fixes only that it is "a fixed
default settings record"; the field values here are representative and no
claim depends on them. -/
def defaultEditorSettings : EditorSettings where
  fontFamily := "monospace"
  fontSize := 14
  lineHeight := 3 / 2
  isBold := false
  isItalic := false
  isUnderline := false
  textAlign := TextAlign.left
  textColor := "#000000"
  backgroundColor := "#ffffff"
  wordWrap := true
  tabSize := 4
  autoSaveInterval := 0

/-- Modelled from the spec: the content storage-key constant from the missing
`atoms/textEditorAtom` module; only the pattern
`{TEXT_EDITOR_STORAGE_KEY}_{editorId}` is specified, not the constant's value. -/
def TEXT_EDITOR_STORAGE_KEY : String := "textEditorContent"

/-- Modelled from the spec: the settings storage-key constant from the missing
`atoms/textEditorAtom` module; only the pattern
`{TEXT_EDITOR_SETTINGS_KEY}_{editorId}` is specified, not the constant's value. -/
def TEXT_EDITOR_SETTINGS_KEY : String := "textEditorSettings"

/-- The full store key for the content record of instance `editorId`:
`` `${TEXT_EDITOR_STORAGE_KEY}_${editorId}` `` (textEditor.tsx line 91). -/
def contentKey (editorId : String) : String :=
  TEXT_EDITOR_STORAGE_KEY ++ "_" ++ editorId

/-- The full store key for the settings record of instance `editorId`:
`` `${TEXT_EDITOR_SETTINGS_KEY}_${editorId}` `` (textEditor.tsx line 99). -/
def settingsKey (editorId : String) : String :=
  TEXT_EDITOR_SETTINGS_KEY ++ "_" ++ editorId

/-- A value held in the persistent key-value store: a raw content string or a
settings record (the store's serialization format is opaque to the spec). -/
inductive StoreValue
  | str (s : String)
  | settings (s : EditorSettings)
deriving DecidableEq, Repr

/-- The persistent per-browser key-value store, as an association list. -/
abbrev Store := List (String × StoreValue)

/-- Read a key from the store. -/
def storeGet (st : Store) (k : String) : Option StoreValue :=
  match st with
  | [] => none
  | (k2, v) :: rest => if k2 = k then some v else storeGet rest k

/-- Remove every binding of key `k` from the store. -/
def storeRemove (st : Store) (k : String) : Store :=
  match st with
  | [] => []
  | (k2, v) :: rest =>
    if k2 = k then storeRemove rest k else (k2, v) :: storeRemove rest k

/-- Modelled from the spec: `saveFeatureState(key, value)` from the missing
`utils/storage` module — "save(key, value) -> ()", a fire-and-forget
key-value write to the persistent store. -/
def saveFeatureState (st : Store) (k : String) (v : StoreValue) : Store :=
  (k, v) :: storeRemove st k

/-- Modelled from the spec: `loadEditorSettings(editorId)` from the missing
`atoms/textEditorAtom` module — "Load failure or absence yields defaults
(a fixed default settings record)". -/
def loadEditorSettings (st : Store) (editorId : String) : EditorSettings :=
  match storeGet st (settingsKey editorId) with
  | some (StoreValue.settings s) => s
  | _ => defaultEditorSettings

/-- Modelled from the spec: `loadEditorContent(editorId)` from the missing
`atoms/textEditorAtom` module — "load(editorId) -> Content|None": the stored
content string when present, `none` on absence or failure. -/
def loadEditorContent (st : Store) (editorId : String) : Option String :=
  match storeGet st (contentKey editorId) with
  | some (StoreValue.str c) => some c
  | _ => none

/-- JavaScript `a || b` for a nullable string `a`, as in
`savedContent || initialContent` (textEditor.tsx line 78): both
`null`/`undefined` and the empty string are falsy, so either yields `b`. -/
def jsOrElse (a : Option String) (b : String) : String :=
  match a with
  | some s => if s = "" then b else s
  | none => b

/-- The component's props with their defaults
(`initialContent = ""`, `editorId = "default"`, lines 59–62). -/
structure Config where
  initialContent : String
  editorId : String
deriving DecidableEq, Repr

/-- The instance state: the `useState`/`useRef` fields of the component plus
the modelled environment (the persistent store and the pending status-clear
timeouts).  `autoSaveTimer` is `some p` when a `setInterval` of period `p`
milliseconds is armed (the `autoSaveTimerRef`), `pendingClears` lists the
absolute fire times (ms) of status-clear `setTimeout`s in scheduling order. -/
structure EditorState where
  content : String
  editorSettings : EditorSettings
  statusMessage : String
  autoSaveTimer : Option Nat
  initialLoadDone : Bool
  store : Store
  pendingClears : List Nat
deriving DecidableEq, Repr

/-- A triggered browser download (an `<a download>` click on a Blob URL). -/
structure Download where
  filename : String
  mime : String
  data : String
deriving DecidableEq, Repr

/-- The externally visible side effects of processing one event. -/
structure Output where
  writes : List (String × StoreValue)
  downloads : List Download
  clipboardAttempts : List String
deriving DecidableEq, Repr

/-- No external side effect. -/
def emptyOutput : Output := ⟨[], [], []⟩

/-- `showStatusMessage` (lines 83–86): sets the transient status string and
schedules `setStatusMessage("")` 2000 ms later with `setTimeout`.  The
timeout handle is not kept, so a pending clear is never cancelled. -/
def showStatusMessage (now : Nat) (message : String) (s : EditorState) : EditorState :=
  { s with statusMessage := message, pendingClears := s.pendingClears ++ [now + 2000] }

/-- Fire the earliest pending status-clear timeout: its callback runs
`setStatusMessage("")`. -/
def fireStatusClear (s : EditorState) : EditorState :=
  match s.pendingClears with
  | [] => s
  | _ :: rest => { s with statusMessage := "", pendingClears := rest }

/-- The save-content effect (lines 89–93): when `initialLoadDone`, writes the
content record under `contentKey editorId`; before the load it does nothing. -/
def saveContentEffect (editorId : String) (s : EditorState) :
    EditorState × List (String × StoreValue) :=
  if s.initialLoadDone then
    ({ s with store := saveFeatureState s.store (contentKey editorId) (StoreValue.str s.content) },
      [(contentKey editorId, StoreValue.str s.content)])
  else (s, [])

/-- The save-settings effect (lines 96–103): when `initialLoadDone`, writes
the settings record under `settingsKey editorId`. -/
def saveSettingsEffect (editorId : String) (s : EditorState) :
    EditorState × List (String × StoreValue) :=
  if s.initialLoadDone then
    ({ s with store :=
        saveFeatureState s.store (settingsKey editorId) (StoreValue.settings s.editorSettings) },
      [(settingsKey editorId, StoreValue.settings s.editorSettings)])
  else (s, [])

/-- The auto-save effect body (lines 106–130): clears any armed interval;
when loaded and `autoSaveInterval > 0`, arms a `setInterval` of
`autoSaveInterval * 1000` ms whose callback only shows the "Auto-saved"
status message (it performs no store write). -/
def runAutoSaveEffect (s : EditorState) : EditorState :=
  if s.initialLoadDone = false ∨ s.editorSettings.autoSaveInterval ≤ 0 then
    { s with autoSaveTimer := none }
  else
    { s with autoSaveTimer := some (s.editorSettings.autoSaveInterval.toNat * 1000) }

/-- One `updateSetting(key, value)` call, with the key-value pair as a
dependent-sum-free inductive: one constructor per settings field. -/
inductive SettingUpdate
  | fontFamily (v : String)
  | fontSize (v : Nat)
  | lineHeight (v : Rat)
  | isBold (v : Bool)
  | isItalic (v : Bool)
  | isUnderline (v : Bool)
  | textAlign (v : TextAlign)
  | textColor (v : String)
  | backgroundColor (v : String)
  | wordWrap (v : Bool)
  | tabSize (v : Nat)
  | autoSaveInterval (v : Int)
deriving DecidableEq, Repr

/-- The `updateSetting` state update (lines 182–190):
`setEditorSettings(prev => ({ ...prev, [key]: value }))`. -/
def applySettingUpdate (prev : EditorSettings) (u : SettingUpdate) : EditorSettings :=
  match u with
  | SettingUpdate.fontFamily v => { prev with fontFamily := v }
  | SettingUpdate.fontSize v => { prev with fontSize := v }
  | SettingUpdate.lineHeight v => { prev with lineHeight := v }
  | SettingUpdate.isBold v => { prev with isBold := v }
  | SettingUpdate.isItalic v => { prev with isItalic := v }
  | SettingUpdate.isUnderline v => { prev with isUnderline := v }
  | SettingUpdate.textAlign v => { prev with textAlign := v }
  | SettingUpdate.textColor v => { prev with textColor := v }
  | SettingUpdate.backgroundColor v => { prev with backgroundColor := v }
  | SettingUpdate.wordWrap v => { prev with wordWrap := v }
  | SettingUpdate.tabSize v => { prev with tabSize := v }
  | SettingUpdate.autoSaveInterval v => { prev with autoSaveInterval := v }

/-- The names of the settings fields, for stating frame conditions. -/
inductive SettingKey
  | fontFamily
  | fontSize
  | lineHeight
  | isBold
  | isItalic
  | isUnderline
  | textAlign
  | textColor
  | backgroundColor
  | wordWrap
  | tabSize
  | autoSaveInterval
deriving DecidableEq, Repr

/-- An untyped view of one settings-field value. -/
inductive SettingValue
  | str (v : String)
  | nat (v : Nat)
  | rat (v : Rat)
  | bool (v : Bool)
  | align (v : TextAlign)
  | int (v : Int)
deriving DecidableEq, Repr

/-- The field an update writes. -/
def SettingUpdate.key : SettingUpdate → SettingKey
  | SettingUpdate.fontFamily _ => SettingKey.fontFamily
  | SettingUpdate.fontSize _ => SettingKey.fontSize
  | SettingUpdate.lineHeight _ => SettingKey.lineHeight
  | SettingUpdate.isBold _ => SettingKey.isBold
  | SettingUpdate.isItalic _ => SettingKey.isItalic
  | SettingUpdate.isUnderline _ => SettingKey.isUnderline
  | SettingUpdate.textAlign _ => SettingKey.textAlign
  | SettingUpdate.textColor _ => SettingKey.textColor
  | SettingUpdate.backgroundColor _ => SettingKey.backgroundColor
  | SettingUpdate.wordWrap _ => SettingKey.wordWrap
  | SettingUpdate.tabSize _ => SettingKey.tabSize
  | SettingUpdate.autoSaveInterval _ => SettingKey.autoSaveInterval

/-- The value an update writes. -/
def SettingUpdate.value : SettingUpdate → SettingValue
  | SettingUpdate.fontFamily v => SettingValue.str v
  | SettingUpdate.fontSize v => SettingValue.nat v
  | SettingUpdate.lineHeight v => SettingValue.rat v
  | SettingUpdate.isBold v => SettingValue.bool v
  | SettingUpdate.isItalic v => SettingValue.bool v
  | SettingUpdate.isUnderline v => SettingValue.bool v
  | SettingUpdate.textAlign v => SettingValue.align v
  | SettingUpdate.textColor v => SettingValue.str v
  | SettingUpdate.backgroundColor v => SettingValue.str v
  | SettingUpdate.wordWrap v => SettingValue.bool v
  | SettingUpdate.tabSize v => SettingValue.nat v
  | SettingUpdate.autoSaveInterval v => SettingValue.int v

/-- Read one settings field by name. -/
def readSetting (s : EditorSettings) : SettingKey → SettingValue
  | SettingKey.fontFamily => SettingValue.str s.fontFamily
  | SettingKey.fontSize => SettingValue.nat s.fontSize
  | SettingKey.lineHeight => SettingValue.rat s.lineHeight
  | SettingKey.isBold => SettingValue.bool s.isBold
  | SettingKey.isItalic => SettingValue.bool s.isItalic
  | SettingKey.isUnderline => SettingValue.bool s.isUnderline
  | SettingKey.textAlign => SettingValue.align s.textAlign
  | SettingKey.textColor => SettingValue.str s.textColor
  | SettingKey.backgroundColor => SettingValue.str s.backgroundColor
  | SettingKey.wordWrap => SettingValue.bool s.wordWrap
  | SettingKey.tabSize => SettingValue.nat s.tabSize
  | SettingKey.autoSaveInterval => SettingValue.int s.autoSaveInterval

/-- An event processed by the mounted component.  `setContent` is the
textarea `onChange`; `clearText` carries the `window.confirm` answer;
`copyToClipboard` carries whether the asynchronous clipboard write resolves;
`autoSaveFire` is one tick of the armed auto-save interval; `statusClearFire`
is the earliest pending status-clear timeout firing. -/
inductive Event
  | setContent (t : String)
  | updateSetting (u : SettingUpdate)
  | clearText (confirmed : Bool)
  | saveToFile
  | copyToClipboard (ok : Bool)
  | autoSaveFire
  | statusClearFire
deriving DecidableEq, Repr

/-- `setContent(t)` (textarea `onChange`, line 498) followed by the re-render:
React bails out when the new string equals the current one (`Object.is` on
strings is value equality), otherwise the save-content effect re-runs
(its `content` dependency changed). -/
def handleSetContent (cfg : Config) (s : EditorState) (t : String) :
    EditorState × Output :=
  if t = s.content then (s, emptyOutput)
  else
    let s1 := { s with content := t }
    let p := saveContentEffect cfg.editorId s1
    (p.1, ⟨p.2, [], []⟩)

/-- `updateSetting(key, value)` (lines 182–190) followed by the re-render:
the merge always builds a fresh object, so the save-settings effect re-runs;
the auto-save effect re-runs only when its `editorSettings.autoSaveInterval`
dependency changed value. -/
def handleUpdateSetting (cfg : Config) (s : EditorState) (u : SettingUpdate) :
    EditorState × Output :=
  let prev := s.editorSettings
  let next := applySettingUpdate prev u
  let s1 := { s with editorSettings := next }
  let p := saveSettingsEffect cfg.editorId s1
  let s2 := if next.autoSaveInterval = prev.autoSaveInterval then p.1 else runAutoSaveEffect p.1
  (s2, ⟨p.2, [], []⟩)

/-- `handleClearText` (lines 156–161): on a confirmed `window.confirm`,
`setContent("")` then `showStatusMessage("All text cleared")`; declining is a
no-op. -/
def handleClearText (cfg : Config) (now : Nat) (s : EditorState) (confirmed : Bool) :
    EditorState × Output :=
  if confirmed then
    let p := handleSetContent cfg s ""
    (showStatusMessage now "All text cleared" p.1, p.2)
  else (s, emptyOutput)

/-- `handleSaveToFile` (lines 133–144): a Blob of the content with MIME type
`text/plain`, downloaded as `` `${editorId}_note.txt` ``, then
`showStatusMessage("Content saved to file")`. -/
def handleSaveToFile (cfg : Config) (now : Nat) (s : EditorState) :
    EditorState × Output :=
  (showStatusMessage now "Content saved to file" s,
    ⟨[], [⟨cfg.editorId ++ "_note.txt", "text/plain", s.content⟩], []⟩)

/-- `handleCopyToClipboard` (lines 146–154): one asynchronous
`navigator.clipboard.writeText(content)` attempt; on resolution a success
message, on rejection the error is caught and a failure message is shown —
no retry, no state change beyond the status message. -/
def handleCopyToClipboard (now : Nat) (s : EditorState) (ok : Bool) :
    EditorState × Output :=
  let msg := if ok then "Content copied to clipboard!" else "Failed to copy content!"
  (showStatusMessage now msg s, ⟨[], [], [s.content]⟩)

/-- One tick of the armed auto-save interval (lines 114–119): the callback
only calls `showStatusMessage("Auto-saved")`; the commented-out store write
is absent. -/
def handleAutoSaveFire (now : Nat) (s : EditorState) : EditorState × Output :=
  match s.autoSaveTimer with
  | none => (s, emptyOutput)
  | some _ => (showStatusMessage now "Auto-saved" s, emptyOutput)

/-- Process one event against the mounted component. -/
def stepE (cfg : Config) (now : Nat) (s : EditorState) : Event → EditorState × Output
  | Event.setContent t => handleSetContent cfg s t
  | Event.updateSetting u => handleUpdateSetting cfg s u
  | Event.clearText confirmed => handleClearText cfg now s confirmed
  | Event.saveToFile => handleSaveToFile cfg now s
  | Event.copyToClipboard ok => handleCopyToClipboard now s ok
  | Event.autoSaveFire => handleAutoSaveFire now s
  | Event.statusClearFire => (fireStatusClear s, emptyOutput)

/-- Mounting the component over an existing store: the initial `useState`
values (lines 64–71), the load effect (lines 74–80) applying the stored
settings and `savedContent || initialContent` and flipping
`initialLoadDone`, and the re-run of the save and auto-save effects once
their `initialLoadDone` dependency changed.  The first render, with
`initialLoadDone` still false, emits no write. -/
def mount (cfg : Config) (store0 : Store) : EditorState × Output :=
  let s0 : EditorState :=
    { content := "", editorSettings := defaultEditorSettings, statusMessage := "",
      autoSaveTimer := none, initialLoadDone := false, store := store0,
      pendingClears := [] }
  let s1 := { s0 with
    editorSettings := loadEditorSettings store0 cfg.editorId,
    content := jsOrElse (loadEditorContent store0 cfg.editorId) cfg.initialContent,
    initialLoadDone := true }
  let p1 := saveContentEffect cfg.editorId s1
  let p2 := saveSettingsEffect cfg.editorId p1.1
  (runAutoSaveEffect p2.1, ⟨p1.2 ++ p2.2, [], []⟩)

/-- Run a timestamped event trace from a mounted component. -/
def run (cfg : Config) (store0 : Store) (events : List (Nat × Event)) : EditorState :=
  events.foldl (fun s p => (stepE cfg p.1 s p.2).1) (mount cfg store0).1

/-- `handleKeyDown`'s argument: the fields of the browser `KeyboardEvent`
the handler reads. -/
structure KeyEvent where
  ctrlKey : Bool
  key : String
deriving DecidableEq, Repr

/-- What one `handleKeyDown` call did: which handlers it invoked and whether
it called `e.preventDefault()`. -/
structure KeyDownResult where
  saveTriggered : Bool
  copyTriggered : Bool
  prevented : Bool
deriving DecidableEq, Repr

/-- `handleKeyDown` (lines 165–176).  `selection` models
`window.getSelection()`: `none` when it returns `null`, `some t` when it
returns a Selection whose `toString()` is `t`; the Ctrl+C guard is
`window.getSelection()?.toString() === ""`, and on a `null` selection the
optional chain yields `undefined`, which is not strictly equal to `""`. -/
def handleKeyDown (e : KeyEvent) (selection : Option String) : KeyDownResult :=
  let save := e.ctrlKey && e.key == "s"
  let selEmpty :=
    match selection with
    | some t => t == ""
    | none => false
  let copy := e.ctrlKey && e.key == "c" && selEmpty
  { saveTriggered := save, copyTriggered := copy, prevented := save || copy }

/-- The property "no text selection exists in the document": the selection
object is absent, or present with empty text. -/
def noTextSelection (selection : Option String) : Prop :=
  selection = none ∨ selection = some ""

/-- A concrete loaded instance used by witnesses and counterexamples:
the state mounted from an empty store with default props. -/
def demoState : EditorState :=
  (mount ⟨"", "default"⟩ []).1

theorem storeGet_saveFeatureState_self (st : Store) (k : String) (v : StoreValue) :
    storeGet (saveFeatureState st k v) k = some v := by
  simp [saveFeatureState, storeGet]

theorem storeGet_storeRemove_ne (st : Store) (k q : String) (h : q ≠ k) :
    storeGet (storeRemove st k) q = storeGet st q := by
  induction st with
  | nil => rfl
  | cons a rest ih =>
    obtain ⟨k2, v⟩ := a
    by_cases hk : k2 = k
    · have hq : k ≠ q := fun hh => h hh.symm
      simp [storeRemove, storeGet, hk, hq]
      exact ih
    · by_cases hq : k2 = q
      · simp [storeRemove, storeGet, hk, hq, h]
      · simp [storeRemove, storeGet, hk, hq]
        exact ih

theorem storeGet_saveFeatureState_other (st : Store) (k q : String) (v : StoreValue)
    (h : q ≠ k) : storeGet (saveFeatureState st k v) q = storeGet st q := by
  have hk : k ≠ q := fun hh => h hh.symm
  simp [saveFeatureState, storeGet, hk]
  exact storeGet_storeRemove_ne st k q h

theorem contentKey_ne_settingsKey (editorId : String) :
    contentKey editorId ≠ settingsKey editorId := by
  intro h
  have h2 := congrArg String.length h
  simp only [contentKey, settingsKey, TEXT_EDITOR_STORAGE_KEY, TEXT_EDITOR_SETTINGS_KEY,
    String.length_append] at h2
  have e1 : "textEditorContent".length = 17 := rfl
  have e2 : "textEditorSettings".length = 18 := rfl
  have e3 : "_".length = 1 := rfl
  rw [e1, e2, e3] at h2
  omega

/-- C7: for every content string and editorId, `saveToFile()` produces a
download of a `text/plain` file named exactly `{editorId}_note.txt` whose
content equals the current content string, shows a transient status message
(with its 2-second clear scheduled), performs no store write, and leaves the
content unchanged. -/
theorem c7_save_to_file (cfg : Config) (now : Nat) (s : EditorState) :
    (stepE cfg now s Event.saveToFile).2.downloads
      = [⟨cfg.editorId ++ "_note.txt", "text/plain", s.content⟩]
    ∧ (stepE cfg now s Event.saveToFile).1.statusMessage = "Content saved to file"
    ∧ (stepE cfg now s Event.saveToFile).1.pendingClears = s.pendingClears ++ [now + 2000]
    ∧ (stepE cfg now s Event.saveToFile).2.writes = []
    ∧ (stepE cfg now s Event.saveToFile).1.content = s.content :=
  ⟨rfl, rfl, rfl, rfl, rfl⟩

/-- C9: every `copyToClipboard()` call makes exactly one asynchronous
clipboard-write attempt carrying the full current content (no retry); on
rejection the failure is caught and surfaced as the failure status message,
with content, settings and store left unchanged and no store write; on
resolution the success message is shown. -/
theorem c9_copy_to_clipboard (cfg : Config) (now : Nat) (s : EditorState) :
    (stepE cfg now s (Event.copyToClipboard true)).2.clipboardAttempts = [s.content]
    ∧ (stepE cfg now s (Event.copyToClipboard false)).2.clipboardAttempts = [s.content]
    ∧ (stepE cfg now s (Event.copyToClipboard false)).1.statusMessage
        = "Failed to copy content!"
    ∧ (stepE cfg now s (Event.copyToClipboard false)).1.content = s.content
    ∧ (stepE cfg now s (Event.copyToClipboard false)).1.editorSettings = s.editorSettings
    ∧ (stepE cfg now s (Event.copyToClipboard false)).1.store = s.store
    ∧ (stepE cfg now s (Event.copyToClipboard false)).2.writes = []
    ∧ (stepE cfg now s (Event.copyToClipboard true)).1.statusMessage
        = "Content copied to clipboard!" :=
  ⟨rfl, rfl, rfl, rfl, rfl, rfl, rfl, rfl⟩

/-- C10: a Ctrl+C keydown while `window.getSelection()` returns `null` does
not trigger `copyToClipboard` and does not suppress the default, because the
guard `getSelection()?.toString() === ""` compares `undefined` strictly to
the empty string. -/
theorem c10_null_selection_guard :
    (handleKeyDown ⟨true, "c"⟩ none).copyTriggered = false
    ∧ (handleKeyDown ⟨true, "c"⟩ none).prevented = false := by
  decide

/-- C8 counterexample: with the selection object absent (`getSelection()`
returning `null`), no text selection exists in the document, yet Ctrl+C does
not trigger `copyToClipboard` and does not suppress the default — refuting
"triggers ... if and only if no text selection exists". -/
theorem c8_counterexample :
    noTextSelection none
    ∧ (handleKeyDown ⟨true, "c"⟩ none).copyTriggered = false
    ∧ (handleKeyDown ⟨true, "c"⟩ none).prevented = false :=
  ⟨Or.inl rfl, by decide, by decide⟩

/-- C8 (amended): Ctrl+S triggers `saveToFile` and suppresses the default;
Ctrl+C triggers `copyToClipboard` and suppresses the default if and only if
the document selection object exists and its text is empty (`some ""`);
the default is suppressed exactly when one of the handlers fires. -/
theorem c8_keyboard_shortcuts (ctrl : Bool) (key : String) (sel : Option String) :
    ((handleKeyDown ⟨ctrl, key⟩ sel).saveTriggered = true ↔ ctrl = true ∧ key = "s")
    ∧ ((handleKeyDown ⟨ctrl, key⟩ sel).copyTriggered = true
        ↔ ctrl = true ∧ key = "c" ∧ sel = some "")
    ∧ ((handleKeyDown ⟨ctrl, key⟩ sel).prevented
        = ((handleKeyDown ⟨ctrl, key⟩ sel).saveTriggered
            || (handleKeyDown ⟨ctrl, key⟩ sel).copyTriggered)) := by
  refine ⟨?_, ?_, rfl⟩
  · simp [handleKeyDown]
  · cases sel with
    | none => simp [handleKeyDown]
    | some t => simp [handleKeyDown, and_assoc]

/-- C1: before the `initialLoadDone` transition no event produces a store
write; once loaded, a content mutation (a `setContent` with a genuinely new
string) produces exactly one write — the content record with its new value
under `{TEXT_EDITOR_STORAGE_KEY}_{editorId}` — and a settings mutation
produces exactly one write — the settings record with its new value under
`{TEXT_EDITOR_SETTINGS_KEY}_{editorId}` — each record saved independently on
its own change. -/
theorem c1_persistence_gate (cfg : Config) (now : Nat) (s : EditorState) :
    (s.initialLoadDone = false → ∀ e : Event, (stepE cfg now s e).2.writes = [])
    ∧ (s.initialLoadDone = true → ∀ t : String, t ≠ s.content →
        (stepE cfg now s (Event.setContent t)).2.writes
          = [(contentKey cfg.editorId, StoreValue.str t)])
    ∧ (s.initialLoadDone = true → ∀ u : SettingUpdate,
        (stepE cfg now s (Event.updateSetting u)).2.writes
          = [(settingsKey cfg.editorId,
              StoreValue.settings (applySettingUpdate s.editorSettings u))]) := by
  refine ⟨?_, ?_, ?_⟩
  · intro h e
    cases e with
    | setContent t =>
      by_cases ht : t = s.content <;>
        simp [stepE, handleSetContent, saveContentEffect, emptyOutput, h, ht]
    | updateSetting u =>
      simp [stepE, handleUpdateSetting, saveSettingsEffect, h]
    | clearText confirmed =>
      cases confirmed with
      | false => rfl
      | true =>
        by_cases ht : "" = s.content <;>
          simp [stepE, handleClearText, handleSetContent, saveContentEffect,
            showStatusMessage, emptyOutput, h, ht]
    | saveToFile => rfl
    | copyToClipboard ok => rfl
    | autoSaveFire =>
      rcases hts : s.autoSaveTimer with _ | p <;>
        simp [stepE, handleAutoSaveFire, emptyOutput, hts]
    | statusClearFire => rfl
  · intro h t ht
    simp [stepE, handleSetContent, saveContentEffect, h, ht]
  · intro h u
    simp [stepE, handleUpdateSetting, saveSettingsEffect, h]

/-- C1 witness: on the freshly mounted default instance, an event before the
load writes nothing, and after the load a content edit writes exactly the
content record and a settings change exactly the settings record. -/
theorem c1_witness :
    (stepE ⟨"", "default"⟩ 0 { demoState with initialLoadDone := false }
        (Event.setContent "x")).2.writes = []
    ∧ (stepE ⟨"", "default"⟩ 0 demoState (Event.setContent "x")).2.writes
        = [(contentKey "default", StoreValue.str "x")]
    ∧ (stepE ⟨"", "default"⟩ 0 demoState
        (Event.updateSetting (SettingUpdate.isBold true))).2.writes
        = [(settingsKey "default",
            StoreValue.settings
              (applySettingUpdate demoState.editorSettings (SettingUpdate.isBold true)))] :=
  ⟨(c1_persistence_gate ⟨"", "default"⟩ 0
      { demoState with initialLoadDone := false }).1 rfl (Event.setContent "x"),
    (c1_persistence_gate ⟨"", "default"⟩ 0 demoState).2.1 (by decide) "x" (by decide),
    (c1_persistence_gate ⟨"", "default"⟩ 0 demoState).2.2 (by decide)
      (SettingUpdate.isBold true)⟩

/-- C2: `updateSetting(k, v)` sets field `k` of the settings record to `v`,
leaves every other field unchanged, and (in a loaded instance) triggers
exactly one save of the updated settings record. -/
theorem c2_update_setting_frame (cfg : Config) (now : Nat) (s : EditorState)
    (u : SettingUpdate) (hload : s.initialLoadDone = true) :
    readSetting (applySettingUpdate s.editorSettings u) u.key = u.value
    ∧ (∀ k : SettingKey, k ≠ u.key →
        readSetting (applySettingUpdate s.editorSettings u) k
          = readSetting s.editorSettings k)
    ∧ (stepE cfg now s (Event.updateSetting u)).2.writes
        = [(settingsKey cfg.editorId,
            StoreValue.settings (applySettingUpdate s.editorSettings u))] := by
  refine ⟨?_, ?_, ?_⟩
  · cases u <;> rfl
  · intro k hk
    cases u <;> cases k <;> first | rfl | exact absurd rfl hk
  · simp [stepE, handleUpdateSetting, saveSettingsEffect, hload]

/-- C2 witness: on the mounted default instance, setting the font size to 18
yields 18 on read-back, leaves word wrap unchanged, and writes exactly the
updated settings record. -/
theorem c2_witness :
    readSetting (applySettingUpdate demoState.editorSettings (SettingUpdate.fontSize 18))
        SettingKey.fontSize = SettingValue.nat 18
    ∧ readSetting (applySettingUpdate demoState.editorSettings (SettingUpdate.fontSize 18))
        SettingKey.wordWrap = readSetting demoState.editorSettings SettingKey.wordWrap
    ∧ (stepE ⟨"", "default"⟩ 0 demoState
        (Event.updateSetting (SettingUpdate.fontSize 18))).2.writes
        = [(settingsKey "default",
            StoreValue.settings
              (applySettingUpdate demoState.editorSettings (SettingUpdate.fontSize 18)))] :=
  ⟨(c2_update_setting_frame ⟨"", "default"⟩ 0 demoState (SettingUpdate.fontSize 18)
      (by decide)).1,
    (c2_update_setting_frame ⟨"", "default"⟩ 0 demoState (SettingUpdate.fontSize 18)
      (by decide)).2.1 SettingKey.wordWrap (by decide),
    (c2_update_setting_frame ⟨"", "default"⟩ 0 demoState (SettingUpdate.fontSize 18)
      (by decide)).2.2⟩

/-- C5: in a loaded instance, an `autoSaveInterval ≤ 0` tears the auto-save
timer down and arms nothing; an interval `n > 0` arms a recurring timer of
period `n * 1000` ms; a tick only shows the transient "Auto-saved" status
message — no store write, no state change beyond the message — and leaves
the timer armed; and changing the interval to a non-positive value tears the
timer down. -/
theorem c5_autosave (cfg : Config) (now : Nat) (s : EditorState) :
    (s.editorSettings.autoSaveInterval ≤ 0 →
      (runAutoSaveEffect s).autoSaveTimer = none)
    ∧ (s.initialLoadDone = true → 0 < s.editorSettings.autoSaveInterval →
        (runAutoSaveEffect s).autoSaveTimer
          = some (s.editorSettings.autoSaveInterval.toNat * 1000))
    ∧ (∀ p : Nat, s.autoSaveTimer = some p →
        (stepE cfg now s Event.autoSaveFire).1.statusMessage = "Auto-saved"
        ∧ (stepE cfg now s Event.autoSaveFire).2 = emptyOutput
        ∧ (stepE cfg now s Event.autoSaveFire).1.store = s.store
        ∧ (stepE cfg now s Event.autoSaveFire).1.content = s.content
        ∧ (stepE cfg now s Event.autoSaveFire).1.editorSettings = s.editorSettings
        ∧ (stepE cfg now s Event.autoSaveFire).1.autoSaveTimer = s.autoSaveTimer)
    ∧ (∀ v : Int, s.initialLoadDone = true → v ≤ 0 →
        v ≠ s.editorSettings.autoSaveInterval →
        (stepE cfg now s
          (Event.updateSetting (SettingUpdate.autoSaveInterval v))).1.autoSaveTimer
          = none) := by
  refine ⟨?_, ?_, ?_, ?_⟩
  · intro h
    simp [runAutoSaveEffect, h]
  · intro h1 h2
    have h3 : ¬s.editorSettings.autoSaveInterval ≤ 0 := not_le.mpr h2
    simp [runAutoSaveEffect, h1, h3]
  · intro p hp
    refine ⟨?_, ?_, ?_, ?_, ?_, ?_⟩ <;>
      simp [stepE, handleAutoSaveFire, hp, showStatusMessage, emptyOutput]
  · intro v h1 h2 h3
    simp [stepE, handleUpdateSetting, saveSettingsEffect, runAutoSaveEffect,
      applySettingUpdate, h1, h2, h3]

/-- C5 witness: with the default instance, interval 0 arms nothing; setting
interval 5 arms a 5000 ms timer; a tick of an armed timer shows "Auto-saved"
with no external side effect; and updating the interval from 5 to 0 tears
the timer down. -/
theorem c5_witness :
    (runAutoSaveEffect demoState).autoSaveTimer = none
    ∧ (runAutoSaveEffect { demoState with
        editorSettings :=
          applySettingUpdate demoState.editorSettings
            (SettingUpdate.autoSaveInterval 5) }).autoSaveTimer = some 5000
    ∧ (stepE ⟨"", "default"⟩ 0 { demoState with autoSaveTimer := some 5000 }
        Event.autoSaveFire).1.statusMessage = "Auto-saved"
    ∧ (stepE ⟨"", "default"⟩ 0 { demoState with autoSaveTimer := some 5000 }
        Event.autoSaveFire).2 = emptyOutput
    ∧ (stepE ⟨"", "default"⟩ 0 { demoState with
        editorSettings :=
          applySettingUpdate demoState.editorSettings
            (SettingUpdate.autoSaveInterval 5) }
        (Event.updateSetting (SettingUpdate.autoSaveInterval 0))).1.autoSaveTimer
        = none :=
  ⟨(c5_autosave ⟨"", "default"⟩ 0 demoState).1 (by decide),
    (c5_autosave ⟨"", "default"⟩ 0 { demoState with
        editorSettings :=
          applySettingUpdate demoState.editorSettings
            (SettingUpdate.autoSaveInterval 5) }).2.1 (by decide) (by decide),
    ((c5_autosave ⟨"", "default"⟩ 0
        { demoState with autoSaveTimer := some 5000 }).2.2.1 5000 rfl).1,
    ((c5_autosave ⟨"", "default"⟩ 0
        { demoState with autoSaveTimer := some 5000 }).2.2.1 5000 rfl).2.1,
    (c5_autosave ⟨"", "default"⟩ 0 { demoState with
        editorSettings :=
          applySettingUpdate demoState.editorSettings
            (SettingUpdate.autoSaveInterval 5) }).2.2.2 0 (by decide) (by decide)
      (by decide)⟩

/-- C3 counterexample: message "A" at t = 0 ms, message "B" at t = 1000 ms.
A's pending clear (deadline 2000 ms) is NOT cancelled by B — both deadlines
remain scheduled — and when it fires the display blanks at t = 2000 ms,
strictly before B's own 2-second mark at t = 3000 ms, refuting "its timer is
cancellable and cancelled by the new message ... never blanking before B's
own 2 seconds elapse". -/
theorem c3_counterexample :
    (showStatusMessage 1000 "B" (showStatusMessage 0 "A" demoState)).statusMessage = "B"
    ∧ (showStatusMessage 1000 "B" (showStatusMessage 0 "A" demoState)).pendingClears
        = [2000, 3000]
    ∧ (fireStatusClear
        (showStatusMessage 1000 "B" (showStatusMessage 0 "A" demoState))).statusMessage = ""
    ∧ (2000 : Nat) < 1000 + 2000 := by
  decide

/-- C3 (amended): a new status message does not cancel the pending clear of
the previous one — each `showStatusMessage` call appends its own 2-second
`setTimeout` and no handle is kept — so after "A" at `tA` and "B" at `tB`
(with `tB` inside A's 2-second window) both deadlines are pending, the
display shows "B", and the earliest pending clear blanks the display at
`tA + 2000`, strictly before B's own 2-second mark `tB + 2000`. -/
theorem c3_status_race (s : EditorState) (tA tB : Nat) (mA mB : String)
    (hclears : s.pendingClears = []) (horder : tA < tB) (hrace : tB < tA + 2000) :
    (showStatusMessage tB mB (showStatusMessage tA mA s)).statusMessage = mB
    ∧ (showStatusMessage tB mB (showStatusMessage tA mA s)).pendingClears
        = [tA + 2000, tB + 2000]
    ∧ (fireStatusClear
        (showStatusMessage tB mB (showStatusMessage tA mA s))).statusMessage = ""
    ∧ tA + 2000 < tB + 2000 := by
  refine ⟨rfl, ?_, ?_, by omega⟩
  · simp [showStatusMessage, hclears]
  · simp [showStatusMessage, fireStatusClear, hclears]

/-- C3 witness: the amended statement at `tA = 0`, `tB = 1000` on the
mounted default instance. -/
theorem c3_witness :
    (showStatusMessage 1000 "B" (showStatusMessage 0 "A" demoState)).statusMessage = "B"
    ∧ (showStatusMessage 1000 "B" (showStatusMessage 0 "A" demoState)).pendingClears
        = [0 + 2000, 1000 + 2000]
    ∧ (fireStatusClear
        (showStatusMessage 1000 "B" (showStatusMessage 0 "A" demoState))).statusMessage = ""
    ∧ 0 + 2000 < 1000 + 2000 :=
  c3_status_race demoState 0 1000 "A" "B" (by decide) (by decide) (by decide)

theorem mount_content (cfg : Config) (store0 : Store) :
    (mount cfg store0).1.content
      = jsOrElse (loadEditorContent store0 cfg.editorId) cfg.initialContent := by
  simp [mount, saveContentEffect, saveSettingsEffect, runAutoSaveEffect, apply_ite]

/-- C4 counterexample: with stored content `""` (which the editor itself
persists, e.g. after a confirmed clear) and `initialContent = "x"`, the
stored content exists, yet after mount the in-memory content is `"x"` — it
equals `initialContent` although stored content exists, because
`savedContent || initialContent` treats the empty string as falsy. -/
theorem c4_counterexample :
    loadEditorContent [(contentKey "default", StoreValue.str "")] "default" = some ""
    ∧ (mount ⟨"x", "default"⟩ [(contentKey "default", StoreValue.str "")]).1.content = "x"
    ∧ ("x" : String) ≠ "" := by
  refine ⟨by decide, by decide, by decide⟩

/-- C4 (amended): after mount the in-memory content equals the stored
content whenever NONEMPTY stored content exists; it equals `initialContent`
when no stored content exists or the stored content is the empty string
(JavaScript `||` falsiness); and both mount-time writes go to keys
namespaced by `editorId`. -/
theorem c4_load_contract (cfg : Config) (store0 : Store) :
    (∀ c : String, loadEditorContent store0 cfg.editorId = some c → c ≠ "" →
        (mount cfg store0).1.content = c)
    ∧ (loadEditorContent store0 cfg.editorId = none →
        (mount cfg store0).1.content = cfg.initialContent)
    ∧ (loadEditorContent store0 cfg.editorId = some "" →
        (mount cfg store0).1.content = cfg.initialContent)
    ∧ ((mount cfg store0).2.writes.map Prod.fst
        = [contentKey cfg.editorId, settingsKey cfg.editorId]) := by
  refine ⟨?_, ?_, ?_, ?_⟩
  · intro c hc hne
    rw [mount_content, hc]
    simp [jsOrElse, hne]
  · intro hc
    rw [mount_content, hc]
    rfl
  · intro hc
    rw [mount_content, hc]
    simp [jsOrElse]
  · simp [mount, saveContentEffect, saveSettingsEffect, runAutoSaveEffect]

/-- C4 witness: stored `"hello"` survives mount; an absent record and a
stored `""` both fall back to `initialContent = "x"`; the mount-time writes
target the two `default`-namespaced keys. -/
theorem c4_witness :
    (mount ⟨"x", "default"⟩ [(contentKey "default", StoreValue.str "hello")]).1.content
      = "hello"
    ∧ (mount ⟨"x", "default"⟩ []).1.content = "x"
    ∧ (mount ⟨"x", "default"⟩ [(contentKey "default", StoreValue.str "")]).1.content = "x"
    ∧ ((mount ⟨"x", "default"⟩ []).2.writes.map Prod.fst
        = [contentKey "default", settingsKey "default"]) :=
  ⟨(c4_load_contract ⟨"x", "default"⟩
      [(contentKey "default", StoreValue.str "hello")]).1 "hello" (by decide) (by decide),
    (c4_load_contract ⟨"x", "default"⟩ []).2.1 (by decide),
    (c4_load_contract ⟨"x", "default"⟩
      [(contentKey "default", StoreValue.str "")]).2.2.1 (by decide),
    (c4_load_contract ⟨"x", "default"⟩ []).2.2.2⟩

/-- C6: in a loaded instance whose store holds the current content (as every
mounted instance's store does), declining the `clearText` confirmation
changes nothing — in memory, in the store, and no side effect — while
confirming empties the in-memory content, persists `""` under the content
key, and leaves the settings record (in memory and in the store) unchanged. -/
theorem c6_clear_text (cfg : Config) (now : Nat) (s : EditorState)
    (hload : s.initialLoadDone = true)
    (hinv : storeGet s.store (contentKey cfg.editorId)
      = some (StoreValue.str s.content)) :
    stepE cfg now s (Event.clearText false) = (s, emptyOutput)
    ∧ (stepE cfg now s (Event.clearText true)).1.content = ""
    ∧ storeGet (stepE cfg now s (Event.clearText true)).1.store (contentKey cfg.editorId)
        = some (StoreValue.str "")
    ∧ (stepE cfg now s (Event.clearText true)).1.editorSettings = s.editorSettings
    ∧ storeGet (stepE cfg now s (Event.clearText true)).1.store (settingsKey cfg.editorId)
        = storeGet s.store (settingsKey cfg.editorId) := by
  have hne : settingsKey cfg.editorId ≠ contentKey cfg.editorId :=
    (contentKey_ne_settingsKey cfg.editorId).symm
  by_cases h0 : ("" : String) = s.content
  · refine ⟨rfl, ?_, ?_, ?_, ?_⟩ <;>
      simp [stepE, handleClearText, handleSetContent, showStatusMessage, emptyOutput,
        h0.symm, hinv]
  · have hstep : (stepE cfg now s (Event.clearText true)).1.store
        = saveFeatureState s.store (contentKey cfg.editorId) (StoreValue.str "") := by
      simp [stepE, handleClearText, handleSetContent, saveContentEffect,
        showStatusMessage, h0, hload]
    refine ⟨rfl, ?_, ?_, ?_, ?_⟩
    · simp [stepE, handleClearText, handleSetContent, saveContentEffect,
        showStatusMessage, h0, hload]
    · rw [hstep]
      exact storeGet_saveFeatureState_self _ _ _
    · simp [stepE, handleClearText, handleSetContent, saveContentEffect,
        showStatusMessage, h0, hload]
    · rw [hstep]
      exact storeGet_saveFeatureState_other _ _ _ _ hne

/-- C6 witness: on the mounted default instance (whose store holds the
current content `""`), a declined clear is a strict no-op and a confirmed
clear leaves `""` in memory and in the store with the settings record
untouched. -/
theorem c6_witness :
    stepE ⟨"", "default"⟩ 0 demoState (Event.clearText false) = (demoState, emptyOutput)
    ∧ (stepE ⟨"", "default"⟩ 0 demoState (Event.clearText true)).1.content = ""
    ∧ storeGet (stepE ⟨"", "default"⟩ 0 demoState (Event.clearText true)).1.store
        (contentKey "default") = some (StoreValue.str "")
    ∧ (stepE ⟨"", "default"⟩ 0 demoState (Event.clearText true)).1.editorSettings
        = demoState.editorSettings
    ∧ storeGet (stepE ⟨"", "default"⟩ 0 demoState (Event.clearText true)).1.store
        (settingsKey "default") = storeGet demoState.store (settingsKey "default") :=
  ⟨(c6_clear_text ⟨"", "default"⟩ 0 demoState (by decide) (by decide)).1,
    (c6_clear_text ⟨"", "default"⟩ 0 demoState (by decide) (by decide)).2.1,
    (c6_clear_text ⟨"", "default"⟩ 0 demoState (by decide) (by decide)).2.2.1,
    (c6_clear_text ⟨"", "default"⟩ 0 demoState (by decide) (by decide)).2.2.2.1,
    (c6_clear_text ⟨"", "default"⟩ 0 demoState (by decide) (by decide)).2.2.2.2⟩

end TabiTabi
